import Mathlib

/-!
Shallow embedding of `src/app.py` (playlist-tracker): the pagination fetcher,
track normalizer, daily accumulator (`update_daily_stats`), historical store,
and the growth-trend computation of `main`.  Dates are modelled as `Nat`
(calendar day since the code only ever compares normalized timestamps for
equality and order), counts and popularity as `Int`, averages and percentage
rates as `ℚ` (the code uses floats; every claim here involves only exact
arithmetic).
-/

namespace PlaylistTracker

/-- Error raised by pandas column access on a missing column
(`df['popularity']` on a column-less DataFrame, app.py:100). -/
inductive Err where
  | keyError
deriving DecidableEq

/-- One entry of `track['artists']`: an object with a display `name`. -/
structure ArtistObj where
  name : String
deriving DecidableEq

/-- The raw track object inside a playlist item (`item['track']`),
with the fields read at app.py:69-79. -/
structure TrackObj where
  id : String
  name : String
  artists : List ArtistObj
  album_name : String
  album_release_date : String
  popularity : Int
  duration_ms : Int
  preview_url : Option String
  external_url : String
deriving DecidableEq

/-- One raw playlist item: its `track` field is null for deleted /
unavailable tracks (app.py:67-68). -/
abbrev RawItem : Type := Option TrackObj

/-- The normalized row dict built at app.py:69-79. -/
structure TrackData where
  track_id : String
  name : String
  artist : String
  album : String
  popularity : Int
  duration_ms : Int
  release_date : String
  preview_url : Option String
  external_url : String
deriving DecidableEq

/-- Builds the row dict of app.py:69-79 from a present track object;
the artist list is flattened with `", ".join(...)` (app.py:72). -/
def mkRow (t : TrackObj) : TrackData :=
  { track_id := t.id
    name := t.name
    artist := String.intercalate ", " (t.artists.map (fun a => a.name))
    album := t.album_name
    popularity := t.popularity
    duration_ms := t.duration_ms
    release_date := t.album_release_date
    preview_url := t.preview_url
    external_url := t.external_url }

/-- The normalizing loop of app.py:65-79: each item's `track` is taken,
appended as a row when present, silently skipped when null. -/
def extractTrackData : List RawItem → List TrackData
  | [] => []
  | none :: rest => extractTrackData rest
  | some t :: rest => mkRow t :: extractTrackData rest

/-- One page response of the provider: its items plus the `next` pointer
(modelled as the Boolean "a next page exists"), app.py:57-62. -/
structure Page where
  items : List RawItem
  next : Bool

/-- The pagination loop of app.py:56-62 over the sequence of page
responses the provider will return: the first response is always
consumed (`playlist_tracks`), then pages are drained while `next` is
set; a failed request aborts the whole fetch with that failure. -/
def fetchPages : List (Except Err Page) → Except Err (List RawItem)
  | [] => .ok []
  | .error e :: _ => .error e
  | .ok p :: rest =>
    if p.next then
      match fetchPages rest with
      | .error e => .error e
      | .ok ts => .ok (p.items ++ ts)
    else
      .ok p.items

/-- An all-successful provider serving the given pages in order, with the
`next` pointer present on every page except the last. -/
def okResponses : List (List RawItem) → List (Except Err Page)
  | [] => []
  | [p] => [.ok ⟨p, false⟩]
  | p :: q :: rest => .ok ⟨p, true⟩ :: okResponses (q :: rest)

instance {ε α : Type} [DecidableEq ε] [DecidableEq α] :
    DecidableEq (Except ε α) := fun a b =>
  match a, b with
  | .error e, .error f =>
    if h : e = f then .isTrue (by rw [h]) else .isFalse (by simp [h])
  | .error _, .ok _ => .isFalse (by simp)
  | .ok _, .error _ => .isFalse (by simp)
  | .ok x, .ok y =>
    if h : x = y then .isTrue (by rw [h]) else .isFalse (by simp [h])

/-- Playlist metadata as used by the app (`playlist['name']`,
`playlist['owner']['display_name']`, `playlist['followers']['total']`). -/
structure PlaylistInfo where
  name : String
  owner_display_name : String
  followers_total : Int
deriving DecidableEq

/-- Model of `pd.DataFrame(track_data)` (app.py:81): a table with an explicit column
list and its rows.  A DataFrame built from an empty list of dicts has no
columns at all; one built from non-empty `track_data` has the nine dict keys
as columns. -/
structure TracksDF where
  cols : List String
  rows : List TrackData
deriving DecidableEq

/-- The nine dict keys of the rows built at app.py:69-79, in insertion
order: these are the columns of a non-empty `tracks_df`. -/
def trackDataCols : List String :=
  ["track_id", "name", "artist", "album", "popularity",
   "duration_ms", "release_date", "preview_url", "external_url"]

/-- Building `pd.DataFrame(track_data)` from the normalized rows: empty input gives
a DataFrame with no columns (this is what makes `tracks_df['popularity']`
raise on an empty playlist). -/
def tracksFromRows (rows : List TrackData) : TracksDF :=
  ⟨if rows.isEmpty then [] else trackDataCols, rows⟩

/-- Embeds `get_playlist_data` (app.py:52-81): fetch the playlist metadata, drain
all track pages, normalize, and return the pair.  The function body has no
exception handling, so a failure of the metadata request or of any page
request aborts the whole call with that failure and no partial result. -/
def get_playlist_data (pl : Except Err PlaylistInfo)
    (resps : List (Except Err Page)) :
    Except Err (PlaylistInfo × TracksDF) :=
  match pl with
  | .error e => .error e
  | .ok info =>
    match fetchPages resps with
    | .error e => .error e
    | .ok items => .ok (info, tracksFromRows (extractTrackData items))

/-- app.py:132-136: `main` wraps the fetch in try/except; on failure it
shows an error and calls `st.stop()`, so no data-dependent processing
happens (`none` below).  `some` carries the data into the rest of `main`. -/
def mainFetch (pl : Except Err PlaylistInfo)
    (resps : List (Except Err Page)) :
    Option (PlaylistInfo × TracksDF) :=
  match get_playlist_data pl resps with
  | .error _ => none
  | .ok r => some r

/-- One persisted row of `playlist_history.csv` (app.py:96-101). -/
structure PRec where
  date : Nat
  saves : Int
  total_tracks : Nat
  avg_popularity : ℚ
deriving DecidableEq

/-- One persisted row of `track_popularity_history.csv` as written by
`update_daily_stats` (app.py:107-108): the four selected columns plus the
assigned `date`. -/
structure TrackRow where
  date : Nat
  track_id : String
  name : String
  artist : String
  popularity : Int
deriving DecidableEq

/-- The two CSV files, i.e. the persisted state `load_historical_data` /
`load_track_history` read and the save functions overwrite. -/
structure Store where
  hist : List PRec
  trackHist : List TrackRow
deriving DecidableEq

/-- Embeds `tracks_df['popularity'].mean()` (app.py:100): raises `KeyError` when
the DataFrame has no `popularity` column (the empty-snapshot case);
otherwise the arithmetic mean of the column. -/
def colMeanPopularity (df : TracksDF) : Except Err ℚ :=
  if "popularity" ∈ df.cols then
    .ok (((df.rows.map (fun t => t.popularity)).sum : ℚ) / df.rows.length)
  else
    .error .keyError

/-- Embeds `tracks_df[['track_id', 'name', 'artist', 'popularity']]`
(app.py:107): raises `KeyError` when a requested column is missing,
otherwise keeps every row (column projection is bookkeeping on `cols`;
the row data needed later is all in `TrackData`). -/
def selectTrackCols (df : TracksDF) : Except Err (List TrackData) :=
  if (["track_id", "name", "artist", "popularity"].all
      (fun c => c ∈ df.cols)) then
    .ok df.rows
  else
    .error .keyError

/-- Building one row of `today_tracks` after `today_tracks['date'] = today`
(app.py:107-108). -/
def mkTrackRow (today : Nat) (t : TrackData) : TrackRow :=
  ⟨today, t.track_id, t.name, t.artist, t.popularity⟩

/-- Embeds `update_daily_stats` (app.py:84-113) with the current date and the
loaded/persisted store made explicit.  Returns the store as left by the
call (saves at app.py:104 and app.py:111 happen in that order, so an
error in between leaves only the first save applied) together with the
returned pair of tables, or the raised error. -/
def update_daily_stats (today : Nat) (playlist_info : PlaylistInfo)
    (tracks_df : TracksDF) (st : Store) :
    Store × Except Err (List PRec × List TrackRow) :=
  let hist_df := st.hist
  let track_hist_df := st.trackHist
  if hist_df.isEmpty = false ∧ today ∈ hist_df.map (fun r => r.date) then
    (st, .ok (hist_df, track_hist_df))
  else
    match colMeanPopularity tracks_df with
    | .error e => (st, .error e)
    | .ok avg =>
      let new_row : PRec :=
        ⟨today, playlist_info.followers_total, tracks_df.rows.length, avg⟩
      let hist2 := hist_df ++ [new_row]
      let st1 : Store := ⟨hist2, track_hist_df⟩
      match selectTrackCols tracks_df with
      | .error e => (st1, .error e)
      | .ok rows =>
        let today_tracks := rows.map (mkTrackRow today)
        let track2 := track_hist_df ++ today_tracks
        (⟨hist2, track2⟩, .ok (hist2, track2))

/-- Store states reachable from the first-run empty tables by successful
`update_daily_stats` calls (arbitrary dates and snapshots). -/
inductive Reachable : Store → Prop where
  | init : Reachable ⟨[], []⟩
  | step (today : Nat) (pinfo : PlaylistInfo) (df : TracksDF)
      (st st' : Store) (r : List PRec × List TrackRow) :
      Reachable st →
      update_daily_stats today pinfo df st = (st', .ok r) →
      Reachable st'

/-- Date-synchronization as the spec states it: every playlist record's
date has exactly `total_tracks` matching track-table rows. -/
def synced (st : Store) : Prop :=
  ∀ r ∈ st.hist,
    (st.trackHist.filter (fun tr => tr.date = r.date)).length = r.total_tracks

instance (st : Store) : Decidable (synced st) :=
  inferInstanceAs (Decidable (∀ r ∈ st.hist, _))

/-- Every date present in the track table also appears in the playlist
table (holds in every reachable store; the strengthening C3 needs). -/
def trackDatesCovered (st : Store) : Prop :=
  ∀ tr ∈ st.trackHist, tr.date ∈ st.hist.map (fun r => r.date)

instance (st : Store) : Decidable (trackDatesCovered st) :=
  inferInstanceAs (Decidable (∀ tr ∈ st.trackHist, _))

/-! Column-level model of the persisted track table.  `load_track_history`
(app.py:41-44) declares one schema for the first-run empty table, while
`update_daily_stats` (app.py:107-110) appends rows built from other column
names; `pd.concat` on frames with different columns produces the union of
the columns (first frame's columns first, then the unseen ones, filled with
NaN). -/

/-- The schema `load_track_history` declares for the first-run empty table
(app.py:44). -/
def loadTrackHistoryCols : List String :=
  ["date", "track_id", "track_name", "artist", "popularity"]

/-- The columns selected from `tracks_df` at app.py:107. -/
def selectedCols : List String :=
  ["track_id", "name", "artist", "popularity"]

/-- Embeds `df['date'] = today` (app.py:108): assigning a fresh column appends it
after the existing ones. -/
def assignDateCol (cols : List String) : List String :=
  if "date" ∈ cols then cols else cols ++ ["date"]

/-- Column set of `pd.concat([a, b])`: `a`'s columns, then the columns of
`b` not already present (rows missing a column get NaN). -/
def concatCols (a b : List String) : List String :=
  a ++ b.filter (fun c => ¬ c ∈ a)

/-- Columns of the `today_tracks` batch appended by `update_daily_stats`. -/
def appendedBatchCols : List String :=
  assignDateCol selectedCols

/-- Columns of the persisted track table after the first successful
`update_daily_stats` on a fresh store (concat of the declared empty schema
with the appended batch, app.py:110). -/
def trackTableColsAfterFirstUpdate : List String :=
  concatCols loadTrackHistoryCols appendedBatchCols

/-! The growth-trend computation of `main` (app.py:158-242), a pure
function of the playlist table. -/

/-- One insertion step of sorting the playlist table by date. -/
def insertByDate (r : PRec) : List PRec → List PRec
  | [] => [r]
  | x :: xs => if r.date ≤ x.date then r :: x :: xs else x :: insertByDate r xs

/-- Embeds `hist_df.sort_values('date')` (app.py:160). -/
def sortByDate : List PRec → List PRec
  | [] => []
  | x :: xs => insertByDate x (sortByDate xs)

/-- Embeds `hist_df['saves'].diff().fillna(0)` (app.py:161): first entry 0, then
consecutive differences. -/
def dailyGrowth : List Int → List Int
  | [] => []
  | x :: xs => 0 :: List.zipWith (fun a b => a - b) xs (x :: xs)

/-- Embeds `(hist_df['saves'].pct_change() * 100).fillna(0)` (app.py:162): first
entry 0, then `(saves[i] / saves[i-1] - 1) * 100`. -/
def growthRate : List Int → List ℚ
  | [] => []
  | x :: xs =>
    0 :: List.zipWith (fun (a b : Int) => ((a : ℚ) / (b : ℚ) - 1) * 100)
      xs (x :: xs)

/-- Embeds `hist_df['saves'].iloc[-1] - hist_df['saves'].iloc[0]` (app.py:232). -/
def totalGrowth (saves : List Int) : Int :=
  saves.getLastD 0 - saves.headD 0

/-- Embeds `hist_df['daily_growth'][1:].mean()` (app.py:235): the mean of the
daily growth column with its first entry dropped. -/
def avgDailyGrowth (saves : List Int) : ℚ :=
  let dg := (dailyGrowth saves).drop 1
  ((dg.sum : ℚ)) / dg.length

/-- Embeds `((saves.iloc[-1] / saves.iloc[0]) - 1) * 100` (app.py:238). -/
def overallGrowthRate (saves : List Int) : ℚ :=
  ((saves.getLastD 0 : ℚ) / (saves.headD 0 : ℚ) - 1) * 100

/-- Embeds `days_tracked = len(hist_df)` (app.py:241), taken on the sorted table
`hist_df` was reassigned to at app.py:160. -/
def daysTracked (hist : List PRec) : Nat :=
  hist.length

/-! Concrete data used in witnesses and counterexamples. -/

/-- A one-track snapshot's raw track object. -/
def exTrack : TrackObj :=
  ⟨"id0", "Song", [⟨"A"⟩, ⟨"B"⟩], "Alb", "2020-01-01", 60, 200000, none, "url"⟩

/-- The one-track `tracks_df` built from `exTrack`. -/
def exDF : TracksDF := tracksFromRows [mkRow exTrack]

/-- Playlist metadata with 10 followers. -/
def exInfo10 : PlaylistInfo := ⟨"SA Playlist", "owner", 10⟩

/-- Playlist metadata with 20 followers. -/
def exInfo20 : PlaylistInfo := ⟨"SA Playlist", "owner", 20⟩

/-- The store after one successful update on day 739000 with `exInfo10`
and `exDF`. -/
def exStore1 : Store :=
  ⟨[⟨739000, 10, 1, 60⟩], [⟨739000, "id0", "Song", "A, B", 60⟩]⟩

/-- Playlist metadata with 5 followers. -/
def exInfo5 : PlaylistInfo := ⟨"SA Playlist", "owner", 5⟩

/-- Playlist metadata with 42 followers (the spec's empty-snapshot
scenario). -/
def exInfo42 : PlaylistInfo := ⟨"SA Playlist", "owner", 42⟩

/-- A stray track-table row dated day 0 with no matching playlist
record. -/
def rogueRow : TrackRow := ⟨0, "zz", "Z", "W", 5⟩

/-- A store whose playlist table is empty while its track table already
holds `rogueRow`: it satisfies the spec's (one-sided) synchronization
property vacuously. -/
def preStore : Store := ⟨[], [rogueRow]⟩

/-- The store left by a one-track update on day 0 applied to `preStore`. -/
def postStore : Store :=
  ⟨[⟨0, 5, 1, 60⟩], [rogueRow, ⟨0, "id0", "Song", "A, B", 60⟩]⟩

/-- The spec's three-day trend example: saves 100, 150, 135 on days
1, 2, 3. -/
def exHist3 : List PRec :=
  [⟨1, 100, 30, 0⟩, ⟨2, 150, 30, 0⟩, ⟨3, 135, 30, 0⟩]

/-! Helper lemmas. -/

theorem selectTrackCols_ok {df : TracksDF} {rows : List TrackData}
    (h : selectTrackCols df = .ok rows) : rows = df.rows := by
  unfold selectTrackCols at h
  split at h
  · exact (Except.ok.inj h).symm
  · exact absurd h (by simp)

/-- When the playlist table already holds a record for `today`,
`update_daily_stats` is the identity on the store and returns the loaded
tables (app.py:92-93). -/
theorem update_noop {today : Nat} {p : PlaylistInfo} {df : TracksDF}
    {st : Store} (h1 : st.hist.isEmpty = false)
    (h2 : today ∈ st.hist.map (fun r => r.date)) :
    update_daily_stats today p df st = (st, .ok (st.hist, st.trackHist)) := by
  unfold update_daily_stats
  rw [if_pos ⟨h1, h2⟩]

/-- Case analysis of a successful `update_daily_stats` call: either the
no-op branch fired, or one playlist record and one batch of track rows
were appended. -/
theorem update_ok_cases {today : Nat} {p : PlaylistInfo} {df : TracksDF}
    {st st' : Store} {r : List PRec × List TrackRow}
    (h : update_daily_stats today p df st = (st', .ok r)) :
    (st' = st ∧ st.hist.isEmpty = false ∧
        today ∈ st.hist.map (fun x => x.date) ∧
        r = (st.hist, st.trackHist)) ∨
    (¬ (st.hist.isEmpty = false ∧ today ∈ st.hist.map (fun x => x.date)) ∧
      ∃ avg : ℚ, colMeanPopularity df = .ok avg ∧
        st' = ⟨st.hist ++ [⟨today, p.followers_total, df.rows.length, avg⟩],
               st.trackHist ++ df.rows.map (mkTrackRow today)⟩ ∧
        r = (st'.hist, st'.trackHist)) := by
  by_cases hg : st.hist.isEmpty = false ∧ today ∈ st.hist.map (fun x => x.date)
  · left
    rw [update_noop hg.1 hg.2] at h
    obtain ⟨h1, h2⟩ := Prod.mk.inj h
    exact ⟨h1.symm, hg.1, hg.2, (Except.ok.inj h2).symm⟩
  · right
    refine ⟨hg, ?_⟩
    unfold update_daily_stats at h
    rw [if_neg hg] at h
    rcases hm : colMeanPopularity df with e | avg <;> rw [hm] at h
    · exact absurd (Prod.mk.inj h).2 (by simp)
    · rcases hs : selectTrackCols df with e | rows <;> rw [hs] at h
      · exact absurd (Prod.mk.inj h).2 (by simp)
      · obtain rfl := selectTrackCols_ok hs
        obtain ⟨h1, h2⟩ := Prod.mk.inj h
        obtain rfl := h1
        obtain rfl := Except.ok.inj h2
        exact ⟨avg, rfl, rfl, rfl⟩

/-- Evaluation of the first example call: one track, 10 followers, fresh
store. -/
theorem update_first_call_eval :
    update_daily_stats 739000 exInfo10 exDF ⟨[], []⟩ =
      (exStore1, .ok (exStore1.hist, exStore1.trackHist)) := by
  simp [update_daily_stats, exInfo10, exDF, exStore1, tracksFromRows, mkRow,
    exTrack, colMeanPopularity, selectTrackCols, mkTrackRow, trackDataCols]
  rfl

/-- After a successful call for `today`, the playlist table is non-empty
and contains a record dated `today`. -/
theorem guard_after_ok {today : Nat} {p : PlaylistInfo} {df : TracksDF}
    {st st' : Store} {r : List PRec × List TrackRow}
    (h : update_daily_stats today p df st = (st', .ok r)) :
    st'.hist.isEmpty = false ∧ today ∈ st'.hist.map (fun x => x.date) := by
  rcases update_ok_cases h with ⟨rfl, h1, h2, _⟩ | ⟨hg, avg, hm, rfl, _⟩
  · exact ⟨h1, h2⟩
  · constructor
    · rcases st.hist with _ | ⟨x, xs⟩ <;> rfl
    · simp

/-- A `Nodup` list of dates bounds the per-date record multiplicity. -/
theorem count_le_one_of_nodup_dates {l : List PRec}
    (h : (l.map (fun r => r.date)).Nodup) (D : Nat) :
    (l.filter (fun r => r.date = D)).length ≤ 1 := by
  induction l with
  | nil => simp
  | cons x xs ih =>
    rw [List.map_cons, List.nodup_cons] at h
    by_cases hx : x.date = D
    · rw [List.filter_cons_of_pos (by simp [hx])]
      have : xs.filter (fun r => decide (r.date = D)) = [] := by
        rw [List.filter_eq_nil_iff]
        intro a ha hc
        exact h.1 (hx ▸ (of_decide_eq_true hc) ▸ List.mem_map_of_mem _ ha)
      simp [this]
    · rw [List.filter_cons_of_neg (by simp [hx])]
      exact ih h.2

/-- Every reachable store has pairwise-distinct dates in its playlist
table. -/
theorem reachable_nodup_dates {st : Store} (h : Reachable st) :
    (st.hist.map (fun r => r.date)).Nodup := by
  induction h with
  | init => simp
  | step today pinfo df st st' r hr hu ih =>
    rcases update_ok_cases hu with ⟨rfl, _, _, _⟩ | ⟨hg, avg, hm, rfl, _⟩
    · exact ih
    · rcases not_and_or.mp hg with hemp | hmem
      · have hnil : st.hist = [] := by
          rw [Bool.not_eq_false, List.isEmpty_iff] at hemp
          exact hemp
        simp [hnil]
      · simp only [List.map_append, List.map_cons, List.map_nil]
        rw [List.nodup_append]
        exact ⟨ih, List.nodup_singleton _, by
          intro a ha hb
          rw [List.mem_singleton] at hb
          exact hmem (hb ▸ ha)⟩

/-- C1.  Within one calendar day, a second `update_daily_stats` call —
with the same or a different snapshot — returns the tables produced by the
first call and leaves the persisted store exactly as the first call left
it: once a record for `today` exists, the call is a no-op and performs no
save, so the first call of the day wins. -/
theorem c1_second_call_same_day_is_noop (today : Nat)
    (p₁ p₂ : PlaylistInfo) (df₁ df₂ : TracksDF) (st st₁ : Store)
    (r : List PRec × List TrackRow)
    (h : update_daily_stats today p₁ df₁ st = (st₁, .ok r)) :
    update_daily_stats today p₂ df₂ st₁ = (st₁, .ok (st₁.hist, st₁.trackHist)) := by
  obtain ⟨h1, h2⟩ := guard_after_ok h
  exact update_noop h1 h2

/-- Witness for C1: first call on a fresh store with 10 followers appends
the day's record; the second call the same day with 20 followers returns
the persisted store unchanged (the record still shows 10 saves). -/
theorem c1_witness :
    update_daily_stats 739000 exInfo10 exDF ⟨[], []⟩ =
      (exStore1, .ok (exStore1.hist, exStore1.trackHist)) ∧
    update_daily_stats 739000 exInfo20 exDF exStore1 =
      (exStore1, .ok (exStore1.hist, exStore1.trackHist)) :=
  ⟨update_first_call_eval,
   c1_second_call_same_day_is_noop 739000 exInfo10 exInfo20 exDF exDF
     ⟨[], []⟩ exStore1 (exStore1.hist, exStore1.trackHist)
     update_first_call_eval⟩

/-- C2.  In every store reachable from the empty tables by successful
`update_daily_stats` calls, the playlist table holds at most one record
per date: the duplicate-day guard preserves date-uniqueness. -/
theorem c2_at_most_one_record_per_date (st : Store) (h : Reachable st)
    (D : Nat) : (st.hist.filter (fun r => r.date = D)).length ≤ 1 :=
  count_le_one_of_nodup_dates (reachable_nodup_dates h) D

/-- Witness for C2 at the reachable store left by one successful update. -/
theorem c2_witness :
    Reachable exStore1 ∧
    (exStore1.hist.filter (fun r => r.date = 739000)).length ≤ 1 :=
  have hr : Reachable exStore1 :=
    Reachable.step 739000 exInfo10 exDF ⟨[], []⟩ exStore1
      (exStore1.hist, exStore1.trackHist) Reachable.init
      update_first_call_eval
  ⟨hr, c2_at_most_one_record_per_date exStore1 hr 739000⟩

/-- All rows of an appended batch carry today's date. -/
theorem filter_batch_today (today : Nat) (rows : List TrackData) :
    (rows.map (mkTrackRow today)).filter (fun tr => tr.date = today) =
      rows.map (mkTrackRow today) := by
  induction rows with
  | nil => rfl
  | cons x xs ih => simp [mkTrackRow, ih]

/-- No row of an appended batch matches a date other than today's. -/
theorem filter_batch_other (today d : Nat) (hne : d ≠ today)
    (rows : List TrackData) :
    (rows.map (mkTrackRow today)).filter (fun tr => tr.date = d) = [] := by
  induction rows with
  | nil => rfl
  | cons x xs ih => simp [mkTrackRow, ih, Ne.symm hne]

/-- C3 (amended).  A successful `update_daily_stats` call preserves
date-synchronization provided the tables additionally satisfy the
(reachability) side condition that every track-table date already appears
in the playlist table; both properties are preserved together. -/
theorem c3_sync_preserved (today : Nat) (p : PlaylistInfo) (df : TracksDF)
    (st st' : Store) (r : List PRec × List TrackRow)
    (hsync : synced st) (hcov : trackDatesCovered st)
    (h : update_daily_stats today p df st = (st', .ok r)) :
    synced st' ∧ trackDatesCovered st' := by
  rcases update_ok_cases h with ⟨rfl, _, _, _⟩ | ⟨hg, avg, hm, rfl, _⟩
  · exact ⟨hsync, hcov⟩
  · have htoday_hist : ∀ x ∈ st.hist, x.date ≠ today := by
      intro x hx hd
      rcases not_and_or.mp hg with hemp | hmem
      · rw [Bool.not_eq_false, List.isEmpty_iff] at hemp
        rw [hemp] at hx
        exact absurd hx (List.not_mem_nil x)
      · exact hmem (hd ▸ List.mem_map_of_mem _ hx)
    have htoday_track : ∀ tr ∈ st.trackHist, tr.date ≠ today := by
      intro tr htr hd
      obtain ⟨x, hx, hxd⟩ := List.mem_map.mp (hcov tr htr)
      exact htoday_hist x hx (by rw [hxd, hd])
    constructor
    · intro rcd hr
      rw [List.mem_append] at hr
      rcases hr with hold | hnew
      · show ((st.trackHist ++ df.rows.map (mkTrackRow today)).filter
            (fun tr => tr.date = rcd.date)).length = rcd.total_tracks
        rw [List.filter_append,
          filter_batch_other today rcd.date (htoday_hist rcd hold) df.rows,
          List.append_nil]
        exact hsync rcd hold
      · rw [List.mem_singleton] at hnew
        subst hnew
        show ((st.trackHist ++ df.rows.map (mkTrackRow today)).filter
            (fun tr => tr.date = today)).length = df.rows.length
        rw [List.filter_append, filter_batch_today today df.rows]
        have hnilf : st.trackHist.filter (fun tr => tr.date = today) = [] := by
          rw [List.filter_eq_nil_iff]
          intro tr htr hc
          exact htoday_track tr htr (of_decide_eq_true hc)
        rw [hnilf]
        simp
    · intro tr htr
      rw [List.mem_append] at htr
      simp only [List.map_append, List.map_cons, List.map_nil,
        List.mem_append]
      rcases htr with hold | hnew
      · exact Or.inl (hcov tr hold)
      · obtain ⟨t, _, rfl⟩ := List.mem_map.mp hnew
        exact Or.inr (by simp [mkTrackRow])

/-- Counterexample to C3 as stated: `preStore` satisfies the spec's
synchronization property (vacuously — its playlist table is empty), a
one-track update on day 0 succeeds, yet the resulting `postStore`
violates synchronization (2 track rows for day 0 against
`total_tracks = 1`), because the stray track row for day 0 was invisible
to the one-sided invariant. -/
theorem c3_counterexample :
    synced preStore ∧
    update_daily_stats 0 exInfo5 exDF preStore =
      (postStore, .ok (postStore.hist, postStore.trackHist)) ∧
    ¬ synced postStore := by
  refine ⟨by decide, ?_, by decide⟩
  simp [update_daily_stats, exInfo5, exDF, preStore, postStore, rogueRow,
    tracksFromRows, mkRow, exTrack, colMeanPopularity, selectTrackCols,
    mkTrackRow, trackDataCols]
  rfl

/-- Witness for the amended C3: a fresh store is synchronized and
covered, and one successful update keeps it so. -/
theorem c3_witness :
    synced ⟨[], []⟩ ∧ trackDatesCovered ⟨[], []⟩ ∧
    (synced exStore1 ∧ trackDatesCovered exStore1) :=
  ⟨by decide, by decide,
   c3_sync_preserved 739000 exInfo10 exDF ⟨[], []⟩ exStore1
     (exStore1.hist, exStore1.trackHist) (by decide) (by decide)
     update_first_call_eval⟩

/-- Counterexample to C4 as stated: a zero-track snapshot with 42
followers on a fresh store does not succeed — `tracks_df` built from zero
normalized rows has no columns, so `tracks_df['popularity']` raises
`KeyError` and no record of any kind is persisted. -/
theorem c4_counterexample :
    update_daily_stats 1 exInfo42 (tracksFromRows []) ⟨[], []⟩ =
      (⟨[], []⟩, .error .keyError) := by
  decide

/-- C4 (amended).  For every zero-track snapshot with today not yet
recorded, `update_daily_stats` raises `KeyError` (the column-less empty
DataFrame has no `popularity` column) before any save, leaving both
persisted tables unchanged; no playlist record and no track rows are
appended. -/
theorem c4_empty_snapshot_raises (today : Nat) (p : PlaylistInfo)
    (st : Store)
    (hg : ¬ (st.hist.isEmpty = false ∧
      today ∈ st.hist.map (fun r => r.date))) :
    update_daily_stats today p (tracksFromRows []) st =
      (st, .error .keyError) := by
  unfold update_daily_stats
  rw [if_neg hg]
  rfl

/-- Witness for the amended C4 at the spec's scenario (fresh store,
42 followers, zero tracks). -/
theorem c4_witness :
    (¬ ((Store.mk [] []).hist.isEmpty = false ∧
        1 ∈ (Store.mk [] []).hist.map (fun r => r.date))) ∧
    update_daily_stats 1 exInfo42 (tracksFromRows []) ⟨[], []⟩ =
      (⟨[], []⟩, .error .keyError) :=
  ⟨by decide, c4_empty_snapshot_raises 1 exInfo42 ⟨[], []⟩ (by decide)⟩

/-- C10.  Any `update_daily_stats` call that raises while constructing
the new playlist record (i.e. `tracks_df['popularity']` fails, the only
fallible step of app.py:96-101) errors before either save is invoked:
the persisted store comes back exactly as it went in. -/
theorem c10_error_before_any_save (today : Nat) (p : PlaylistInfo)
    (df : TracksDF) (st : Store) (e : Err)
    (hg : ¬ (st.hist.isEmpty = false ∧
      today ∈ st.hist.map (fun r => r.date)))
    (hm : colMeanPopularity df = .error e) :
    update_daily_stats today p df st = (st, .error e) := by
  unfold update_daily_stats
  rw [if_neg hg, hm]

/-- Witness for C10: the zero-track DataFrame on a fresh store. -/
theorem c10_witness :
    (¬ ((Store.mk [] []).hist.isEmpty = false ∧
        0 ∈ (Store.mk [] []).hist.map (fun r => r.date))) ∧
    colMeanPopularity (tracksFromRows []) = .error .keyError ∧
    update_daily_stats 0 exInfo5 (tracksFromRows []) ⟨[], []⟩ =
      (⟨[], []⟩, .error .keyError) :=
  ⟨by decide, by decide,
   c10_error_before_any_save 0 exInfo5 (tracksFromRows []) ⟨[], []⟩
     .keyError (by decide) (by decide)⟩

/-- C5 (code bug).  The first-run load declares the five-column schema
`date, track_id, track_name, artist, popularity`, but the batch appended
by `update_daily_stats` populates `name` — not `track_name` — so after the
first successful update the persisted track table has six columns, with
`track_name` never populated.  The appended rows do not populate exactly
the declared five columns. -/
theorem c5_track_schema_mismatch :
    loadTrackHistoryCols =
      ["date", "track_id", "track_name", "artist", "popularity"] ∧
    appendedBatchCols = ["track_id", "name", "artist", "popularity", "date"] ∧
    ¬ "track_name" ∈ appendedBatchCols ∧
    trackTableColsAfterFirstUpdate =
      ["date", "track_id", "track_name", "artist", "popularity", "name"] ∧
    trackTableColsAfterFirstUpdate ≠ loadTrackHistoryCols := by
  decide

/-- C7.  Over any all-successful paginated provider, the fetcher's
assembled sequence is exactly the concatenation of the pages' items in
page order (so its length is the sum of the page sizes and no
deduplication happens). -/
theorem c7_pagination_complete (pages : List (List RawItem)) :
    fetchPages (okResponses pages) = .ok pages.flatten ∧
    pages.flatten.length = (pages.map List.length).sum := by
  constructor
  · induction pages with
    | nil => rfl
    | cons p rest ih =>
      cases rest with
      | nil => simp [okResponses, fetchPages]
      | cons q rest2 => simp [okResponses, fetchPages, ih]
  · induction pages with
    | nil => rfl
    | cons p rest ih => simp [List.flatten, ih]

/-- C8.  The normalizer drops exactly the null-track items (producing no
row and no error), maps the present ones 1:1 in their original relative
order, and joins artist display names with `", "` in provider order. -/
theorem c8_normalizer_omission (items xs ys : List RawItem)
    (t : TrackObj) :
    extractTrackData items = (items.filterMap id).map mkRow ∧
    extractTrackData (xs ++ none :: ys) = extractTrackData (xs ++ ys) ∧
    (mkRow t).artist =
      String.intercalate ", " (t.artists.map (fun a => a.name)) := by
  refine ⟨?_, ?_, rfl⟩
  · induction items with
    | nil => rfl
    | cons x rest ih => cases x <;> simp [extractTrackData, ih]
  · induction xs with
    | nil => rfl
    | cons x rest ih => cases x <;> simp [extractTrackData, ih]

/-- C9.  If the playlist-metadata request fails, or any page request
reached by the pagination loop fails, `get_playlist_data` returns exactly
that failure (no partial result), and `main` halts instead of running
data-dependent processing. -/
theorem c9_fetch_failure_aborts (e : Err) (info : PlaylistInfo)
    (resps pre rest : List (Except Err Page))
    (hpre : ∀ r ∈ pre, ∃ p : Page, r = .ok p ∧ p.next = true) :
    get_playlist_data (.error e) resps = .error e ∧
    mainFetch (.error e) resps = none ∧
    fetchPages (pre ++ .error e :: rest) = .error e ∧
    get_playlist_data (.ok info) (pre ++ .error e :: rest) = .error e ∧
    mainFetch (.ok info) (pre ++ .error e :: rest) = none := by
  have hf : fetchPages (pre ++ .error e :: rest) = .error e := by
    induction pre with
    | nil => rfl
    | cons r pre2 ih =>
      obtain ⟨p, rfl, hnext⟩ := hpre r (List.mem_cons_self r pre2)
      have ih2 := ih (fun q hq => hpre q (List.mem_cons_of_mem _ hq))
      simp [fetchPages, hnext, ih2]
  exact ⟨rfl, rfl, hf, by simp [get_playlist_data, hf],
    by simp [mainFetch, get_playlist_data, hf]⟩

/-- Witness for C9: a one-page successful prefix followed by a failing
page request. -/
theorem c9_witness :
    (∀ r ∈ ([.ok ⟨[], true⟩] : List (Except Err Page)),
      ∃ p : Page, r = .ok p ∧ p.next = true) ∧
    fetchPages ([.ok ⟨[], true⟩] ++ .error .keyError :: []) =
      .error .keyError ∧
    mainFetch (.ok exInfo10) ([.ok ⟨[], true⟩] ++ .error .keyError :: []) =
      none := by
  have hpre : ∀ r ∈ ([.ok ⟨[], true⟩] : List (Except Err Page)),
      ∃ p : Page, r = .ok p ∧ p.next = true := by
    intro r hr
    rw [List.mem_singleton] at hr
    exact ⟨⟨[], true⟩, hr, rfl⟩
  obtain ⟨_, _, h3, _, h5⟩ :=
    c9_fetch_failure_aborts .keyError exInfo10 [] [.ok ⟨[], true⟩] [] hpre
  exact ⟨hpre, h3, h5⟩

/-- The `daily_growth` column has one entry per playlist record. -/
theorem dailyGrowth_length (l : List Int) :
    (dailyGrowth l).length = l.length := by
  cases l with
  | nil => rfl
  | cons x xs => simp [dailyGrowth, List.length_zipWith]

/-- Index formula for `daily_growth` past the first row. -/
theorem dailyGrowth_getD (l : List Int) (i : Nat) (h0 : 0 < i)
    (hl : i < l.length) :
    (dailyGrowth l).getD i 0 = l.getD i 0 - l.getD (i - 1) 0 := by
  cases l with
  | nil => simp at hl
  | cons x xs =>
    obtain ⟨j, rfl⟩ : ∃ j, i = j + 1 :=
      ⟨i - 1, (Nat.succ_pred_eq_of_pos h0).symm⟩
    have hj : j < xs.length := Nat.lt_of_succ_lt_succ (by simpa using hl)
    have hz : j < (List.zipWith (fun a b : Int => a - b) xs (x :: xs)).length := by
      rw [List.length_zipWith]
      simp
      omega
    show (List.zipWith (fun a b : Int => a - b) xs (x :: xs)).getD j 0 =
      (x :: xs).getD (j + 1) 0 - (x :: xs).getD j 0
    rw [List.getD_eq_getElem _ _ hz, List.getElem_zipWith,
      List.getD_eq_getElem _ _ (by simpa using Nat.succ_lt_succ hj),
      List.getD_eq_getElem _ _ (by simp; omega)]
    simp

/-- Index formula for `growth_rate` past the first row. -/
theorem growthRate_getD (l : List Int) (i : Nat) (h0 : 0 < i)
    (hl : i < l.length) :
    (growthRate l).getD i 0 =
      ((l.getD i 0 : ℚ) / (l.getD (i - 1) 0 : ℚ) - 1) * 100 := by
  cases l with
  | nil => simp at hl
  | cons x xs =>
    obtain ⟨j, rfl⟩ : ∃ j, i = j + 1 :=
      ⟨i - 1, (Nat.succ_pred_eq_of_pos h0).symm⟩
    have hj : j < xs.length := Nat.lt_of_succ_lt_succ (by simpa using hl)
    have hz : j < (List.zipWith
        (fun (a b : Int) => ((a : ℚ) / (b : ℚ) - 1) * 100)
        xs (x :: xs)).length := by
      rw [List.length_zipWith]
      simp
      omega
    simp only [Nat.add_sub_cancel]
    have key : (growthRate (x :: xs)).getD (j + 1) 0 =
        (List.zipWith (fun (a b : Int) => ((a : ℚ) / (b : ℚ) - 1) * 100)
          xs (x :: xs)).getD j 0 := rfl
    rw [key, List.getD_eq_getElem _ _ hz, List.getElem_zipWith,
      List.getD_eq_getElem _ _ (by simpa using Nat.succ_lt_succ hj),
      List.getD_eq_getElem _ _ (by simp; omega)]
    simp

theorem insertByDate_length (r : PRec) (l : List PRec) :
    (insertByDate r l).length = l.length + 1 := by
  induction l with
  | nil => rfl
  | cons x xs ih =>
    unfold insertByDate
    by_cases h : r.date ≤ x.date <;> simp [h, ih]

theorem sortByDate_length (l : List PRec) :
    (sortByDate l).length = l.length := by
  induction l with
  | nil => rfl
  | cons x xs ih => simp [sortByDate, insertByDate_length, ih]

/-- C6.  Over the date-sorted playlist table the trend deriver satisfies
the spec's formulas: daily growth is the consecutive difference of saves
(0 on the first row), growth rate is the percentage change (0 on the
first row), total growth is last minus first saves, mean daily growth is
the mean of daily growth excluding the first row, day count is the row
count; and on the example saves `[100, 150, 135]` it yields
daily growth `[0, 50, -15]`, growth rate `[0, 50, -10]` percent, total
growth `35` and overall growth rate `35` percent. -/
theorem c6_trend_deriver (hist : List PRec) (saves : List Int) (i : Nat)
    (_h2 : 2 ≤ hist.length)
    (hs : saves = (sortByDate hist).map (fun r => r.saves))
    (h0 : 0 < i) (hi : i < saves.length) :
    (dailyGrowth saves).getD 0 0 = 0 ∧
    (dailyGrowth saves).getD i 0 = saves.getD i 0 - saves.getD (i - 1) 0 ∧
    (growthRate saves).getD 0 0 = 0 ∧
    (growthRate saves).getD i 0 =
      ((saves.getD i 0 : ℚ) / (saves.getD (i - 1) 0 : ℚ) - 1) * 100 ∧
    totalGrowth saves = saves.getLastD 0 - saves.headD 0 ∧
    avgDailyGrowth saves =
      ((((dailyGrowth saves).drop 1).sum : ℚ)) /
        ((saves.length - 1 : Nat) : ℚ) ∧
    daysTracked (sortByDate hist) = hist.length ∧
    dailyGrowth [100, 150, 135] = [0, 50, -15] ∧
    growthRate [100, 150, 135] = [0, 50, -10] ∧
    totalGrowth [100, 150, 135] = 35 ∧
    overallGrowthRate [100, 150, 135] = 35 := by
  refine ⟨?_, dailyGrowth_getD saves i h0 hi, ?_,
    growthRate_getD saves i h0 hi, rfl, ?_, sortByDate_length hist,
    by decide, by norm_num [growthRate], by decide,
    by norm_num [overallGrowthRate]⟩
  · cases saves <;> rfl
  · cases saves <;> rfl
  · simp only [avgDailyGrowth, List.length_drop, dailyGrowth_length]

/-- Witness for C6 at the spec's example table. -/
theorem c6_witness :
    2 ≤ exHist3.length ∧
    [100, 150, 135] = (sortByDate exHist3).map (fun r => r.saves) ∧
    ((dailyGrowth [100, 150, 135]).getD 0 0 = 0 ∧
     (dailyGrowth [100, 150, 135]).getD 2 0 =
       ([100, 150, 135] : List Int).getD 2 0 -
         ([100, 150, 135] : List Int).getD (2 - 1) 0 ∧
     (growthRate [100, 150, 135]).getD 0 0 = 0 ∧
     (growthRate [100, 150, 135]).getD 2 0 =
       ((([100, 150, 135] : List Int).getD 2 0 : ℚ) /
         (([100, 150, 135] : List Int).getD (2 - 1) 0 : ℚ) - 1) * 100 ∧
     totalGrowth [100, 150, 135] =
       ([100, 150, 135] : List Int).getLastD 0 -
         ([100, 150, 135] : List Int).headD 0 ∧
     avgDailyGrowth [100, 150, 135] =
       ((((dailyGrowth [100, 150, 135]).drop 1).sum : ℚ)) /
         ((([100, 150, 135] : List Int).length - 1 : Nat) : ℚ) ∧
     daysTracked (sortByDate exHist3) = exHist3.length ∧
     dailyGrowth [100, 150, 135] = [0, 50, -15] ∧
     growthRate [100, 150, 135] = [0, 50, -10] ∧
     totalGrowth [100, 150, 135] = 35 ∧
     overallGrowthRate [100, 150, 135] = 35) :=
  ⟨by decide, by decide,
   c6_trend_deriver exHist3 [100, 150, 135] 2 (by decide) (by decide)
     (by decide) (by decide)⟩

end PlaylistTracker
